import Mathlib

/-!
Verification of `src/docker/ParsePatientRecords.py` (simple-etl).

The development shallowly embeds the Python module: JSON documents become the
inductive `JValue`, Python runtime exceptions become `PyErr`, fallible Python
expressions become `Except PyErr` computations, the local filesystem becomes an
association list `Fs`, and the external collaborators (S3, SQS, urllib) are
abstracted as an explicit `Collab` environment whose outcomes parameterise the
pipeline.  The CSV writer follows the `csv.excel` dialect used at lines 90-94
of the source (comma delimiter, double-quote quoting, minimal quoting, CRLF
line terminator).
-/

/-- A parsed JSON document, as produced by Python `json.loads`: objects are
association lists with string keys, numbers are modelled as integers (no
floating-point value occurs in any input considered here). -/
inductive JValue where
  | null : JValue
  | bool : Bool → JValue
  | num : Int → JValue
  | str : String → JValue
  | arr : List JValue → JValue
  | obj : List (String × JValue) → JValue

/-- The Python exceptions that the embedded code can raise. -/
inductive PyErr where
  | keyError : PyErr
  | indexError : PyErr
  | attributeError : PyErr
  | typeError : PyErr
  | nameError : PyErr
  | valueError : PyErr
  | fileNotFoundError : PyErr
  | clientError : PyErr
deriving DecidableEq, Repr

/-- Python truthiness of a JSON-derived value (`if not resource:` at line 68):
`None`, `False`, `0`, `''`, `[]` and the empty dict are falsy. -/
def pyTruthy : JValue → Bool
  | JValue.null => false
  | JValue.bool b => b
  | JValue.num n => decide (n ≠ 0)
  | JValue.str s => !s.data.isEmpty
  | JValue.arr xs => !xs.isEmpty
  | JValue.obj fs => !fs.isEmpty

/-- Python `v.get(key, default)`: dictionary lookup with a default.  Calling
`.get` on a non-dict raises `AttributeError`. -/
def pyGetD : JValue → String → JValue → Except PyErr JValue
  | JValue.obj fs, k, d => Except.ok ((List.lookup k fs).getD d)
  | _, _, _ => Except.error PyErr.attributeError

/-- Python `v[i]` for an integer subscript `i`: list indexing (`IndexError`
when out of range); subscripting a dict looks the integer up as a key, which
is never present in a JSON-derived dict (string keys only), so it raises
`KeyError`; strings index to one-character strings; anything else raises
`TypeError`. -/
def pySubscriptNat : JValue → Nat → Except PyErr JValue
  | JValue.arr xs, i =>
      match xs[i]? with
      | some x => Except.ok x
      | none => Except.error PyErr.indexError
  | JValue.obj _, _ => Except.error PyErr.keyError
  | JValue.str s, i =>
      match s.data[i]? with
      | some c => Except.ok (JValue.str (String.mk [c]))
      | none => Except.error PyErr.indexError
  | _, _ => Except.error PyErr.typeError

/-- Python `v[k]` for a string subscript `k`: dict lookup raising `KeyError`
when the key is absent, `TypeError` on a non-dict receiver. -/
def pySubscriptStr : JValue → String → Except PyErr JValue
  | JValue.obj fs, k =>
      match List.lookup k fs with
      | some x => Except.ok x
      | none => Except.error PyErr.keyError
  | _, _ => Except.error PyErr.typeError

/-- ASCII lowering of one character. -/
def pyCharLower (c : Char) : Char :=
  if 65 ≤ c.toNat ∧ c.toNat ≤ 90 then Char.ofNat (c.toNat + 32) else c

/-- Python `v.lower()`: defined on strings only (`AttributeError` otherwise);
ASCII lowering, which agrees with `str.lower` on every input considered. -/
def pyLower : JValue → Except PyErr String
  | JValue.str s => Except.ok (String.mk (s.data.map pyCharLower))
  | _ => Except.error PyErr.attributeError

/-- Python iteration `for x in v`: lists yield their elements, strings their
characters, dicts their keys; other values raise `TypeError`. -/
def pyIter : JValue → Except PyErr (List JValue)
  | JValue.arr xs => Except.ok xs
  | JValue.str s => Except.ok (s.data.map (fun c => JValue.str (String.mk [c])))
  | JValue.obj fs => Except.ok (fs.map (fun p => JValue.str p.1))
  | _ => Except.error PyErr.typeError

/-- The single-quote character, kept as a named constant. -/
def squoteChar : Char := Char.ofNat 39

/-- The single-quote character as a string. -/
def squote : String := String.mk [squoteChar]

/-- Backslash-escape embedded single quotes, as Python `repr` does inside a
single-quoted string. -/
def escapeSingleQuotes (s : String) : String :=
  String.mk (s.data.foldr
    (fun c acc => if c = squoteChar then '\\' :: squoteChar :: acc else c :: acc) [])

/-- Python `repr` of a string without backslashes or control characters:
single-quoted, except that a string containing a single quote and no double
quote is double-quoted. -/
def pyStrRepr (s : String) : String :=
  if s.data.contains squoteChar && !(s.data.contains '"') then "\"" ++ s ++ "\""
  else squote ++ escapeSingleQuotes s ++ squote

/-- Join strings with a separator (structural `String.intercalate`). -/
def strJoinSep (sep : String) : List String → String
  | [] => ""
  | [x] => x
  | x :: xs => x ++ sep ++ strJoinSep sep xs

mutual

/-- Python `repr` of a JSON-derived value (`str` and `repr` agree on
containers, booleans, numbers and `None`). -/
def pyRepr : JValue → String
  | JValue.null => "None"
  | JValue.bool true => "True"
  | JValue.bool false => "False"
  | JValue.num n => toString n
  | JValue.str s => pyStrRepr s
  | JValue.arr xs => "[" ++ strJoinSep ", " (pyReprList xs) ++ "]"
  | JValue.obj fs => "\x7b" ++ strJoinSep ", " (pyReprObj fs) ++ "\x7d"

/-- `repr` of each element of a list. -/
def pyReprList : List JValue → List String
  | [] => []
  | v :: vs => pyRepr v :: pyReprList vs

/-- `repr` of each key-value pair of a dict. -/
def pyReprObj : List (String × JValue) → List String
  | [] => []
  | (k, v) :: ps => (pyStrRepr k ++ ": " ++ pyRepr v) :: pyReprObj ps

end

/-- How Python's `csv` writer renders one cell: strings are written as-is,
`None` becomes the empty string, and any other object is rendered with `str`
(which coincides with `repr` for booleans, numbers and lists). -/
def pyCsvCell : JValue → String
  | JValue.str s => s
  | JValue.null => ""
  | v => pyRepr v

/-- A character that forces quoting under `csv.excel` with minimal quoting:
the delimiter, the quote character, or a line-terminator character. -/
def isCsvSpecial (c : Char) : Bool :=
  decide (c = ',') || decide (c = '"') || decide (c = '\r') || decide (c = '\n')

/-- Whether the `csv.excel` writer must quote a field. -/
def needsQuote (f : List Char) : Bool := f.any isCsvSpecial

/-- Double every quote character, as the `doublequote` option of `csv.excel`
does inside a quoted field. -/
def escapeField : List Char → List Char
  | [] => []
  | c :: cs => if c = '"' then '"' :: '"' :: escapeField cs else c :: escapeField cs

/-- Encode one field: quote it exactly when it contains a special character. -/
def encodeField (f : List Char) : List Char :=
  if needsQuote f then '"' :: (escapeField f ++ ['"']) else f

/-- Join the encoded fields of one record with the comma delimiter. -/
def encodeRow : List (List Char) → List Char
  | [] => []
  | [f] => encodeField f
  | f :: fs => encodeField f ++ ',' :: encodeRow fs

/-- Encode a sequence of records, terminating each with CRLF as the
`csv.excel` dialect does. -/
def encodeCsv : List (List (List Char)) → List Char
  | [] => []
  | r :: rs => encodeRow r ++ '\r' :: '\n' :: encodeCsv rs

/-- `csv.writer(f, dialect=csv.excel)` applied to a list of string rows
(lines 90-94 of the source), returned as the full text written to the file. -/
def write_csv (rows : List (List String)) : String :=
  String.mk (encodeCsv (rows.map (fun r => r.map String.data)))

/-- The fixed 11-column header written at line 92 of the source. -/
def csvHeader : List String :=
  ["url", "resource_id", "last_updated", "status", "system_id", "active",
   "first_name", "last_name", "phone", "gender", "address"]

/-- The header row as it appears in the output file. -/
def csvHeaderLine : String :=
  "url,resource_id,last_updated,status,system_id,active,first_name,last_name,phone,gender,address\r\n"

/-- Lines 66-88 of the source: handle one element of the entry list.  The two
skip branches (`resource` missing or falsy, resource type not `patient`) call
`print` with a format argument that names `in_file`, an identifier defined
nowhere in the module (the parameter is `input_file`), so evaluating the
diagnostic raises `NameError` before the `continue` is reached.  Otherwise the
11 fields are extracted in source order and appended as one row. -/
def process_entry (entry : JValue) : Except PyErr (List JValue) := do
  let url ← pyGetD entry "fullUrl" (JValue.str "")
  let resource ← pyGetD entry "resource" (JValue.obj [])
  if !pyTruthy resource then
    Except.error PyErr.nameError
  else do
    let rtv ← pyGetD resource "resourceType" (JValue.str "")
    let resource_type ← pyLower rtv
    if resource_type ≠ "patient" then
      Except.error PyErr.nameError
    else do
      let resource_id ← pyGetD resource "id" (JValue.str "")
      let meta ← pyGetD resource "meta" (JValue.obj [])
      let last_updated ← pyGetD meta "lastUpdated" (JValue.str "")
      let text1 ← pyGetD resource "text" (JValue.obj [])
      let statusv ← pyGetD text1 "status" (JValue.str "")
      let status ← pyLower statusv
      let text2 ← pyGetD resource "text" (JValue.obj [])
      let system_id ← pyGetD text2 "value" JValue.null
      let active ← pyGetD resource "active" (JValue.bool false)
      let name1 ← pyGetD resource "name" (JValue.obj [])
      let name1i ← pySubscriptNat name1 0
      let givenL ← pyGetD name1i "given" (JValue.arr [JValue.str ""])
      let first_name ← pySubscriptNat givenL 0
      let name2 ← pyGetD resource "name" (JValue.obj [])
      let name2i ← pySubscriptNat name2 0
      let last_name ← pyGetD name2i "family" (JValue.arr [JValue.str ""])
      let telecomL ← pyGetD resource "telecom" (JValue.arr [JValue.obj []])
      let telecom0 ← pySubscriptNat telecomL 0
      let phone ← pyGetD telecom0 "value" (JValue.str "")
      let gender ← pyGetD resource "gender" (JValue.str "")
      let addressL ← pyGetD resource "address" (JValue.arr [JValue.obj []])
      let address0 ← pySubscriptNat addressL 0
      let address ← pyGetD address0 "value" (JValue.str "")
      Except.ok [url, resource_id, last_updated, JValue.str status, system_id,
                 active, first_name, last_name, phone, gender, address]

/-- Line 65 of the source: `for entry in data.get('entry', []):` with the rows
accumulated in order; the first exception aborts the whole loop. -/
def bundle_rows (data : JValue) : Except PyErr (List (List JValue)) := do
  let entv ← pyGetD data "entry" (JValue.arr [])
  let entries ← pyIter entv
  entries.mapM process_entry

/-- What a local file holds: a document that `json.loads` parses successfully,
or opaque text that it rejects. -/
inductive FileContent where
  | json : JValue → FileContent
  | text : String → FileContent

/-- The local filesystem: an association list from path to content, newest
entry first. -/
abbrev Fs := List (String × FileContent)

/-- Look a path up in the filesystem. -/
def fsLookup (fs : Fs) (p : String) : Option FileContent := List.lookup p fs

/-- Write (or overwrite) a file. -/
def fsWrite (fs : Fs) (p : String) (c : FileContent) : Fs :=
  (p, c) :: fs.filter (fun e => e.1 != p)

/-- `os.remove`: delete the file, raising `FileNotFoundError` when the exact
path is absent. -/
def osRemove (fs : Fs) (p : String) : Except PyErr Fs :=
  if (fsLookup fs p).isSome then Except.ok (fs.filter (fun e => e.1 != p))
  else Except.error PyErr.fileNotFoundError

/-- The reading half of `parse_patient_data` (lines 61-88): `os.path.exists`
false leaves `rows` empty; an existing file is parsed by `json.loads` (an
unparseable file raises `ValueError`) and its entries are walked. -/
def parsed_rows : Option FileContent → Except PyErr (List (List JValue))
  | none => Except.ok []
  | some (FileContent.json data) => bundle_rows data
  | some (FileContent.text _) => Except.error PyErr.valueError

/-- The CSV text that `parse_patient_data` writes for a given input file:
header row, then one row per extracted record (lines 90-94). -/
def patient_csv_output (input : Option FileContent) : Except PyErr String := do
  let rows ← parsed_rows input
  Except.ok (write_csv (csvHeader :: rows.map (fun r => r.map pyCsvCell)))

/-- `parse_patient_data(input_file, output_file)` (lines 38-94), with the
filesystem explicit: reads `input_file` (a missing file yields zero rows) and
writes the CSV to `output_file`; if extraction raises, nothing is written and
the exception propagates. -/
def parse_patient_data (fs : Fs) (input_file output_file : String) :
    Except PyErr Fs :=
  match patient_csv_output (fsLookup fs input_file) with
  | Except.ok csvText => Except.ok (fsWrite fs output_file (FileContent.text csvText))
  | Except.error e => Except.error e

/-- The module-level constant `output_dir = '/processed'` (line 25). -/
def output_dir : String := "/processed"

/-- Whether all characters of the basename before the chosen dot are dots
(reading the reversed path towards the front): `os.path.splitext` splits off
an extension only when some non-dot character precedes the dot within the
basename. -/
def extStemExists : List Char → Bool
  | [] => false
  | c :: rest => if c = '/' then false else if c = '.' then extStemExists rest else true

/-- Scan the reversed path for the last dot of the basename; returns the
reversed root when an extension is split off. -/
def splitextRootAux : List Char → Option (List Char)
  | [] => none
  | c :: rest =>
      if c = '/' then none
      else if c = '.' then (if extStemExists rest then some rest else none)
      else splitextRootAux rest

/-- `os.path.splitext(p)[0]`: the path without its extension; paths with no
extension (including dotfiles) are returned unchanged. -/
def splitext_root (p : String) : String :=
  match splitextRootAux p.data.reverse with
  | some root => String.mk root.reverse
  | none => p

/-- `os.path.join(a, b)` for POSIX paths: an absolute second component
discards the first. -/
def path_join (a b : String) : String :=
  if b.data.head? = some '/' then b
  else if a.data.isEmpty ∨ a.data.getLast? = some '/' then a ++ b
  else a ++ "/" ++ b

/-- `os.path.basename(p)`: everything after the last slash. -/
def basenameAux : List Char → List Char
  | [] => []
  | c :: rest => if c = '/' then [] else c :: basenameAux rest

/-- `os.path.basename` on a `String`. -/
def basename (p : String) : String :=
  String.mk (basenameAux p.data.reverse).reverse

/-- The external collaborators of one `process_data` run, abstracted at their
interface boundary: `unquote` stands for the `urllib` percent-decoding call
(under Python 3 the attribute `urllib.unquote_plus` does not even exist and
the call raises; the model charitably takes the decoder as an oracle),
`s3Object` gives the content of each key in the input bucket (`none` makes
`s3.download_file` raise), and `upload` tells whether `s3.upload_file`
succeeds for a given destination key. -/
structure Collab where
  unquote : String → String
  s3Object : String → Option FileContent
  upload : String → Bool

/-- The two SQS operations the worker issues on a message (lines 121, 124). -/
inductive QueueEvent where
  | deleted : QueueEvent
  | visibilityChanged : Nat → QueueEvent
deriving DecidableEq, Repr

/-- Lines 112-114: `message_content['Records'][0]['s3']['object']['key']`,
followed by the requirement that the key be a string (the decode/encode calls
on a non-string raise `TypeError`). -/
def extract_key (mc : JValue) : Except PyErr String := do
  let records ← pySubscriptStr mc "Records"
  let r0 ← pySubscriptNat records 0
  let s3v ← pySubscriptStr r0 "s3"
  let objv ← pySubscriptStr s3v "object"
  let key ← pySubscriptStr objv "key"
  match key with
  | JValue.str s => Except.ok s
  | _ => Except.error PyErr.typeError

/-- `s3.download_file(input_bucket_name, input_file, input_file)` (line 115):
writes the object's bytes to the local path equal to the key, raising a client
error when the object is unavailable. -/
def download (c : Collab) (fs : Fs) (key : String) : Except (PyErr × Fs) Fs :=
  match c.s3Object key with
  | some content => Except.ok (fsWrite fs key content)
  | none => Except.error (PyErr.clientError, fs)

/-- `upload_data` (lines 130-131): uploads `output_file` under its basename as
destination key. -/
def upload_data (c : Collab) (output_file : String) : Except PyErr Unit :=
  if c.upload (basename output_file) then Except.ok () else Except.error PyErr.clientError

/-- `cleanup_files(input_file, output_file)` (lines 126-128): removes
`input_file`, then removes `output_dir + '/' + output_file`.  Errors carry the
filesystem as mutated so far, since a raise leaves earlier removals done. -/
def cleanup_files (fs : Fs) (input_file output_file : String) :
    Except (PyErr × Fs) Fs :=
  match osRemove fs input_file with
  | Except.error e => Except.error (e, fs)
  | Except.ok fs1 =>
      match osRemove fs1 (output_dir ++ "/" ++ output_file) with
      | Except.error e => Except.error (e, fs1)
      | Except.ok fs2 => Except.ok fs2

/-- The body of the per-message `try` block (lines 111-119): parse the
notification body (`none` models a body `json.loads` rejects), extract and
decode the object key, download, derive the output path, transform, upload,
clean up.  The error value carries the filesystem at the point of the raise. -/
def pipeline_body (c : Collab) (fs : Fs) (body : Option JValue) :
    Except (PyErr × Fs) Fs :=
  match body with
  | none => Except.error (PyErr.valueError, fs)
  | some mc =>
      match extract_key mc with
      | Except.error e => Except.error (e, fs)
      | Except.ok rawKey =>
          let input_file := c.unquote rawKey
          match download c fs input_file with
          | Except.error ef => Except.error ef
          | Except.ok fs1 =>
              let output_file := path_join output_dir (splitext_root input_file ++ ".csv")
              match parse_patient_data fs1 input_file output_file with
              | Except.error e => Except.error (e, fs1)
              | Except.ok fs2 =>
                  match upload_data c output_file with
                  | Except.error e => Except.error (e, fs2)
                  | Except.ok _ => cleanup_files fs2 input_file output_file

/-- One iteration of the `for message in ...` loop (lines 109-124): on any
exception the message's visibility timeout is set to 0 and the loop continues;
otherwise (`else:`) the message is deleted.  Returns the queue operations
issued for this message and the resulting local filesystem. -/
def handle_message (c : Collab) (fs : Fs) (body : Option JValue) :
    List QueueEvent × Fs :=
  match pipeline_body c fs body with
  | Except.ok fs2 => ([QueueEvent.deleted], fs2)
  | Except.error (_, fs2) => ([QueueEvent.visibilityChanged 0], fs2)

/-- `process_data()` (lines 96-124).  `fetched` is the outcome of the
`get_messages_from_sqs()` call at line 109 (each received message reduced to
its parsed body): that call sits outside the per-message `try`, so its
exception propagates out of `process_data` — and out of `main`'s bare
`while True` loop (lines 142-145), terminating the process.  On a successful
fetch, each message is handled in order and no exception escapes. -/
def process_data (c : Collab) (fs : Fs)
    (fetched : Except PyErr (List (Option JValue))) :
    Except PyErr (List (List QueueEvent) × Fs) :=
  match fetched with
  | Except.error e => Except.error e
  | Except.ok bodies =>
      Except.ok (bodies.foldl
        (fun acc b =>
          let r := handle_message c acc.2 b
          (acc.1 ++ [r.1], r.2))
        ([], fs))

/-- Is an `Except` a success? -/
def exceptIsOk {ε α : Type} : Except ε α → Bool
  | Except.ok _ => true
  | Except.error _ => false

/-- Modes of the standard delimited-text reader used to check the round-trip
law: inside an (possibly empty) unquoted field, inside a quoted field, just
after a closing quote, or after a CR awaiting the LF of a CRLF record end. -/
inductive CsvMode where
  | unq : CsvMode
  | inq : CsvMode
  | postq : CsvMode
  | cr : CsvMode
deriving DecidableEq, Repr

/-- The reader's state: current mode, the field and record accumulated so far,
the completed records, and an error flag (set by malformed input such as text
after a closing quote or a CR not followed by LF). -/
structure CsvState where
  mode : CsvMode
  field : List Char
  row : List (List Char)
  rows : List (List (List Char))
  err : Bool

/-- One step of the reader.  A quote is special only at the start of a field;
inside a quoted field a doubled quote encodes a literal quote; records end at
CRLF (or at a bare LF). -/
def csvStep (s : CsvState) (c : Char) : CsvState :=
  if s.err then s else
  match s.mode with
  | CsvMode.unq =>
      if c = '"' then
        (if s.field.isEmpty then { s with mode := CsvMode.inq }
         else { s with field := s.field ++ [c] })
      else if c = ',' then { s with field := [], row := s.row ++ [s.field] }
      else if c = '\r' then
        { s with mode := CsvMode.cr, field := [], row := s.row ++ [s.field] }
      else if c = '\n' then
        { s with field := [], row := [], rows := s.rows ++ [s.row ++ [s.field]] }
      else { s with field := s.field ++ [c] }
  | CsvMode.inq =>
      if c = '"' then { s with mode := CsvMode.postq }
      else { s with field := s.field ++ [c] }
  | CsvMode.postq =>
      if c = '"' then { s with mode := CsvMode.inq, field := s.field ++ [c] }
      else if c = ',' then
        { s with mode := CsvMode.unq, field := [], row := s.row ++ [s.field] }
      else if c = '\r' then
        { s with mode := CsvMode.cr, field := [], row := s.row ++ [s.field] }
      else if c = '\n' then
        { s with mode := CsvMode.unq, field := [], row := [],
                 rows := s.rows ++ [s.row ++ [s.field]] }
      else { s with err := true }
  | CsvMode.cr =>
      if c = '\n' then { s with mode := CsvMode.unq, row := [], rows := s.rows ++ [s.row] }
      else { s with err := true }

/-- The reader's initial state. -/
def csvInit : CsvState := ⟨CsvMode.unq, [], [], [], false⟩

/-- Flush the final state: an unterminated quoted field or dangling CR is an
error; a final record without a trailing CRLF is accepted. -/
def csvFinish (s : CsvState) : Option (List (List (List Char))) :=
  if s.err then none else
  match s.mode with
  | CsvMode.inq => none
  | CsvMode.cr => none
  | CsvMode.postq => some (s.rows ++ [s.row ++ [s.field]])
  | CsvMode.unq =>
      if s.field.isEmpty && s.row.isEmpty then some s.rows
      else some (s.rows ++ [s.row ++ [s.field]])

/-- Run the reader over a character list. -/
def csvReadChars (input : List Char) : Option (List (List (List Char))) :=
  csvFinish (input.foldl csvStep csvInit)

/-- Run the reader over a string, recovering string-valued cells. -/
def csvParse (s : String) : Option (List (List String)) :=
  (csvReadChars s.data).map (fun rs => rs.map (fun r => r.map String.mk))

/-- The mode the reader is left in right after consuming one encoded field:
still in the unquoted field for a plain field, just past the closing quote
for a quoted one. -/
def encMode (f : List Char) : CsvMode :=
  if needsQuote f then CsvMode.postq else CsvMode.unq

/-- The concrete patient bundle of the specification's scenario. -/
def c1bundle : JValue :=
  JValue.obj [("entry", JValue.arr [JValue.obj [
    ("fullUrl", JValue.str "u1"),
    ("resource", JValue.obj [
      ("resourceType", JValue.str "Patient"),
      ("id", JValue.str "p1"),
      ("active", JValue.bool true),
      ("gender", JValue.str "female"),
      ("name", JValue.arr [JValue.obj [
        ("given", JValue.arr [JValue.str "Ann"]),
        ("family", JValue.arr [JValue.str "Lee"])]]),
      ("telecom", JValue.arr [JValue.obj [("value", JValue.str "555-1234")]]),
      ("address", JValue.arr [JValue.obj [("value", JValue.str "1 Main St")]])])]])]

/-- The single data row the scenario expects, with the family name keeping its
list rendering. -/
def c1row : String :=
  "u1,p1,,,,True,Ann,[" ++ squote ++ "Lee" ++ squote ++ "],555-1234,female,1 Main St\r\n"

/-- The full expected CSV text for the scenario. -/
def c1csv : String := csvHeaderLine ++ c1row

/-- A patient entry whose resource has no `name` key. -/
def c2bundle : JValue :=
  JValue.obj [("entry", JValue.arr [JValue.obj [
    ("fullUrl", JValue.str "u2"),
    ("resource", JValue.obj [
      ("resourceType", JValue.str "Patient"),
      ("id", JValue.str "p2")])]])]

/-- A structurally valid bundle whose entry list is empty. -/
def emptyEntriesBundle : JValue := JValue.obj [("entry", JValue.arr [])]

/-- An entry carrying no `resource` at all. -/
def c7bundle : JValue :=
  JValue.obj [("entry", JValue.arr [JValue.obj [("fullUrl", JValue.str "u7")]])]

/-- A collaborator environment in which everything external succeeds: the
queue key decodes to itself, the input bucket holds the scenario bundle under
`records.json`, and every upload succeeds. -/
def goodCollab : Collab where
  unquote := fun s => s
  s3Object := fun k =>
    if k = "records.json" then some (FileContent.json c1bundle) else none
  upload := fun _ => true

/-- A well-formed S3 event notification body for the key `records.json`. -/
def goodBody : JValue :=
  JValue.obj [("Records", JValue.arr [JValue.obj [
    ("s3", JValue.obj [("object", JValue.obj [("key", JValue.str "records.json")])])]])]

theorem string_mk_data (s : String) : String.mk s.data = s := by
  cases s
  rfl

theorem foldl_csvStep_escape (f fa : List Char) (row : List (List Char))
    (rows : List (List (List Char))) :
    List.foldl csvStep ⟨CsvMode.inq, fa, row, rows, false⟩ (escapeField f)
      = ⟨CsvMode.inq, fa ++ f, row, rows, false⟩ := by
  induction f generalizing fa with
  | nil => simp [escapeField]
  | cons c cs ih =>
    by_cases hc : c = '"'
    · subst hc
      have h1 : escapeField ('"' :: cs) = '"' :: '"' :: escapeField cs := by
        simp [escapeField]
      have h2 : csvStep ⟨CsvMode.inq, fa, row, rows, false⟩ '"'
          = ⟨CsvMode.postq, fa, row, rows, false⟩ := rfl
      have h3 : csvStep ⟨CsvMode.postq, fa, row, rows, false⟩ '"'
          = ⟨CsvMode.inq, fa ++ ['"'], row, rows, false⟩ := rfl
      rw [h1, List.foldl_cons, List.foldl_cons, h2, h3, ih]
      simp
    · have h1 : escapeField (c :: cs) = c :: escapeField cs := by
        simp [escapeField, hc]
      have h2 : csvStep ⟨CsvMode.inq, fa, row, rows, false⟩ c
          = ⟨CsvMode.inq, fa ++ [c], row, rows, false⟩ := by
        simp [csvStep, hc]
      rw [h1, List.foldl_cons, h2, ih]
      simp

theorem foldl_csvStep_plain (f : List Char) (h : ∀ c ∈ f, isCsvSpecial c = false)
    (fa : List Char) (row : List (List Char)) (rows : List (List (List Char))) :
    List.foldl csvStep ⟨CsvMode.unq, fa, row, rows, false⟩ f
      = ⟨CsvMode.unq, fa ++ f, row, rows, false⟩ := by
  induction f generalizing fa with
  | nil => simp
  | cons c cs ih =>
    have hc := h c (List.mem_cons_self c cs)
    have h1 : c ≠ ',' := by intro e; subst e; simp [isCsvSpecial] at hc
    have h2 : c ≠ '"' := by intro e; subst e; simp [isCsvSpecial] at hc
    have h3 : c ≠ '\r' := by intro e; subst e; simp [isCsvSpecial] at hc
    have h4 : c ≠ '\n' := by intro e; subst e; simp [isCsvSpecial] at hc
    have hstep : csvStep ⟨CsvMode.unq, fa, row, rows, false⟩ c
        = ⟨CsvMode.unq, fa ++ [c], row, rows, false⟩ := by
      simp [csvStep, h1, h2, h3, h4]
    rw [List.foldl_cons, hstep, ih (fun d hd => h d (List.mem_cons_of_mem c hd))]
    simp

theorem foldl_csvStep_encodeField (f : List Char) (row : List (List Char))
    (rows : List (List (List Char))) :
    List.foldl csvStep ⟨CsvMode.unq, [], row, rows, false⟩ (encodeField f)
      = ⟨encMode f, f, row, rows, false⟩ := by
  by_cases hq : needsQuote f = true
  · have he : encodeField f = '"' :: (escapeField f ++ ['"']) := by
      simp [encodeField, hq]
    have hm : encMode f = CsvMode.postq := by simp [encMode, hq]
    have h0 : csvStep ⟨CsvMode.unq, [], row, rows, false⟩ '"'
        = ⟨CsvMode.inq, [], row, rows, false⟩ := rfl
    rw [he, hm, List.foldl_cons, h0, List.foldl_append, foldl_csvStep_escape]
    simp only [List.nil_append, List.foldl_cons, List.foldl_nil]
    rfl
  · have hq' : needsQuote f = false := by
      revert hq; cases needsQuote f <;> simp
    have he : encodeField f = f := by simp [encodeField, hq']
    have hm : encMode f = CsvMode.unq := by simp [encMode, hq']
    have hall : ∀ c ∈ f, isCsvSpecial c = false := by
      intro c hcf
      by_contra hx
      have hx' : isCsvSpecial c = true := by
        revert hx; cases isCsvSpecial c <;> simp
      have : needsQuote f = true := by
        simp only [needsQuote, List.any_eq_true]
        exact ⟨c, hcf, hx'⟩
      exact Bool.noConfusion (hq'.symm.trans this)
    rw [he, hm, foldl_csvStep_plain f hall]
    simp

theorem foldl_csvStep_encodeRow (r : List (List Char)) (hr : r ≠ [])
    (row : List (List Char)) (rows : List (List (List Char))) :
    List.foldl csvStep ⟨CsvMode.unq, [], row, rows, false⟩ (encodeRow r ++ ['\r', '\n'])
      = ⟨CsvMode.unq, [], [], rows ++ [row ++ r], false⟩ := by
  induction r generalizing row with
  | nil => exact absurd rfl hr
  | cons f fs ih =>
    cases fs with
    | nil =>
      have he : encodeRow [f] = encodeField f := rfl
      rw [he, List.foldl_append, foldl_csvStep_encodeField]
      by_cases hq : needsQuote f = true
      · have hm : encMode f = CsvMode.postq := by simp [encMode, hq]
        have s1 : csvStep ⟨CsvMode.postq, f, row, rows, false⟩ '\r'
            = ⟨CsvMode.cr, [], row ++ [f], rows, false⟩ := rfl
        have s2 : csvStep ⟨CsvMode.cr, [], row ++ [f], rows, false⟩ '\n'
            = ⟨CsvMode.unq, [], [], rows ++ [row ++ [f]], false⟩ := rfl
        rw [hm]
        simp [List.foldl_cons, s1, s2]
      · have hq' : needsQuote f = false := by
          revert hq; cases needsQuote f <;> simp
        have hm : encMode f = CsvMode.unq := by simp [encMode, hq']
        have s1 : csvStep ⟨CsvMode.unq, f, row, rows, false⟩ '\r'
            = ⟨CsvMode.cr, [], row ++ [f], rows, false⟩ := rfl
        have s2 : csvStep ⟨CsvMode.cr, [], row ++ [f], rows, false⟩ '\n'
            = ⟨CsvMode.unq, [], [], rows ++ [row ++ [f]], false⟩ := rfl
        rw [hm]
        simp [List.foldl_cons, s1, s2]
    | cons g t =>
      have he : encodeRow (f :: g :: t) = encodeField f ++ ',' :: encodeRow (g :: t) := rfl
      have hassoc : (encodeField f ++ ',' :: encodeRow (g :: t)) ++ ['\r', '\n']
          = encodeField f ++ ',' :: (encodeRow (g :: t) ++ ['\r', '\n']) := by
        simp
      have hcomma : csvStep ⟨encMode f, f, row, rows, false⟩ ','
          = ⟨CsvMode.unq, [], row ++ [f], rows, false⟩ := by
        by_cases hq : needsQuote f = true
        · have hm : encMode f = CsvMode.postq := by simp [encMode, hq]
          rw [hm]; rfl
        · have hq' : needsQuote f = false := by
            revert hq; cases needsQuote f <;> simp
          have hm : encMode f = CsvMode.unq := by simp [encMode, hq']
          rw [hm]; rfl
      rw [he, hassoc, List.foldl_append, foldl_csvStep_encodeField, List.foldl_cons, hcomma,
          ih (by simp) (row ++ [f])]
      simp

theorem foldl_csvStep_encodeCsv (rs : List (List (List Char)))
    (h : ∀ r ∈ rs, r ≠ []) (rows : List (List (List Char))) :
    List.foldl csvStep ⟨CsvMode.unq, [], [], rows, false⟩ (encodeCsv rs)
      = ⟨CsvMode.unq, [], [], rows ++ rs, false⟩ := by
  induction rs generalizing rows with
  | nil => simp [encodeCsv]
  | cons r rs' ih =>
    have he : encodeCsv (r :: rs') = (encodeRow r ++ ['\r', '\n']) ++ encodeCsv rs' := by
      simp [encodeCsv]
    have h1 := foldl_csvStep_encodeRow r (h r (List.mem_cons_self r rs')) [] rows
    simp only [List.nil_append] at h1
    rw [he, List.foldl_append, h1, ih (fun x hx => h x (List.mem_cons_of_mem r hx))]
    simp

theorem csvReadChars_encodeCsv (rs : List (List (List Char)))
    (h : ∀ r ∈ rs, r ≠ []) :
    csvReadChars (encodeCsv rs) = some rs := by
  unfold csvReadChars csvInit
  rw [foldl_csvStep_encodeCsv rs h []]
  simp [csvFinish]

/-- Claim C1: on the specification's concrete bundle, `parse_patient_data`
writes a CSV consisting of the 11-column header row followed by exactly one
data row `u1,p1,,,,True,Ann,['Lee'],555-1234,female,1 Main St`, the
family-name column keeping its list rendering. -/
theorem c1_concrete_scenario :
    parse_patient_data [("records.json", FileContent.json c1bundle)]
        "records.json" "/processed/records.csv"
      = Except.ok [("/processed/records.csv", FileContent.text c1csv),
                   ("records.json", FileContent.json c1bundle)] := rfl

/-- Claim C2 (code-bug evaluation): a patient entry whose resource has no
`name` key does not get empty name columns — `resource.get('name', dict())[0]`
subscripts the default empty dict, raising `KeyError` and aborting the whole
extraction, so no output file is written. -/
theorem c2_missing_name_key_raises :
    parse_patient_data [("bundle.json", FileContent.json c2bundle)]
        "bundle.json" "/processed/bundle.csv"
      = Except.error PyErr.keyError := rfl

/-- Claim C3 (code-bug evaluation): even with every external collaborator
succeeding — a well-formed notification body, the object present in the input
bucket with a valid patient bundle, and the upload succeeding — the per-item
pipeline still raises (in `cleanup_files`, on the doubled output path), so the
message's visibility is set to 0 and it is never deleted; the produced output
file is left on the local filesystem. -/
theorem c3_valid_item_never_acknowledged :
    handle_message goodCollab [] (some goodBody)
      = ([QueueEvent.visibilityChanged 0],
         [("/processed/records.csv", FileContent.text c1csv)]) := rfl

/-- Claim C4 (code-bug evaluation): with both local files present,
`cleanup_files` removes the downloaded input, then calls `os.remove` on
`output_dir + '/' + output_file` — `/processed//processed/records.csv`, a path
that does not exist — raising `FileNotFoundError`; the produced output file is
not removed. -/
theorem c4_cleanup_leaves_output_and_raises :
    cleanup_files [("records.json", FileContent.json c1bundle),
                   ("/processed/records.csv", FileContent.text c1csv)]
        "records.json" "/processed/records.csv"
      = Except.error (PyErr.fileNotFoundError,
          [("/processed/records.csv", FileContent.text c1csv)]) := rfl

/-- Claim C5 counterexample: on a structurally valid bundle with an empty
entry list — zero rows produced — extraction does not signal any error: it
succeeds with a header-only CSV, so no `NoPatientRecords` condition reaches
the caller. -/
theorem c5_zero_rows_succeeds :
    patient_csv_output (some (FileContent.json emptyEntriesBundle))
      = Except.ok csvHeaderLine := rfl

/-- Extraction that yields no rows still writes the header-only CSV and
reports success. -/
theorem rows_nil_csv_output (input : Option FileContent)
    (h : parsed_rows input = Except.ok []) :
    patient_csv_output input = Except.ok csvHeaderLine := by
  have e : patient_csv_output input
      = Except.bind (parsed_rows input)
          (fun rows =>
            Except.ok (write_csv (csvHeader :: rows.map (fun r => r.map pyCsvCell)))) := rfl
  rw [e, h]
  rfl

/-- Claim C5 amended: whenever iterating all entries produces zero rows,
`parse_patient_data` succeeds silently with a CSV containing only the header
row; no `NoPatientRecords` error exists in the code or is signalled. -/
theorem c5_amended_zero_rows_silent (data : JValue)
    (h : bundle_rows data = Except.ok []) :
    patient_csv_output (some (FileContent.json data)) = Except.ok csvHeaderLine := by
  have hp : parsed_rows (some (FileContent.json data)) = Except.ok [] := by
    have e : parsed_rows (some (FileContent.json data)) = bundle_rows data := rfl
    rw [e, h]
  exact rows_nil_csv_output _ hp

/-- Witness for C5's amended theorem at a concrete zero-patient bundle. -/
theorem c5_amended_witness :
    bundle_rows (JValue.obj [("id", JValue.str "b1"), ("entry", JValue.arr [])])
        = Except.ok []
      ∧ patient_csv_output (some (FileContent.json
          (JValue.obj [("id", JValue.str "b1"), ("entry", JValue.arr [])])))
        = Except.ok csvHeaderLine :=
  ⟨rfl, c5_amended_zero_rows_silent _ rfl⟩

/-- Claim C6 counterexample: a parsed document with no `entry` field (the
empty JSON object) is not rejected as malformed — `data.get('entry', [])`
defaults to the empty list and the run succeeds with a header-only CSV, so no
`MalformedBundle` error is returned. -/
theorem c6_no_entry_field_succeeds :
    patient_csv_output (some (FileContent.json (JValue.obj [])))
      = Except.ok csvHeaderLine := rfl

/-- Claim C6 amended: any parsed JSON object lacking the `entry` key is
treated as containing zero entries: extraction proceeds and succeeds with a
header-only CSV rather than signalling a structural `MalformedBundle` error. -/
theorem c6_amended_missing_entry_defaults (fields : List (String × JValue))
    (h : List.lookup "entry" fields = none) :
    patient_csv_output (some (FileContent.json (JValue.obj fields)))
      = Except.ok csvHeaderLine := by
  have hb : bundle_rows (JValue.obj fields) = Except.ok [] := by
    have e : bundle_rows (JValue.obj fields)
        = Except.bind (Except.ok ((List.lookup "entry" fields).getD (JValue.arr [])))
            (fun entv => Except.bind (pyIter entv)
              (fun entries => entries.mapM process_entry)) := rfl
    rw [e, h]
    rfl
  have hp : parsed_rows (some (FileContent.json (JValue.obj fields))) = Except.ok [] := by
    have e : parsed_rows (some (FileContent.json (JValue.obj fields)))
        = bundle_rows (JValue.obj fields) := rfl
    rw [e, hb]
  exact rows_nil_csv_output _ hp

/-- Witness for C6's amended theorem at a concrete entry-less document. -/
theorem c6_amended_witness :
    List.lookup "entry" [("resourceType", JValue.str "Bundle")] = (none : Option JValue)
      ∧ patient_csv_output (some (FileContent.json
          (JValue.obj [("resourceType", JValue.str "Bundle")])))
        = Except.ok csvHeaderLine :=
  ⟨rfl, c6_amended_missing_entry_defaults _ rfl⟩

/-- Claim C7 (code-bug evaluation): an entry with no resource is not skipped
with a diagnostic — the diagnostic's format arguments name `in_file`, an
undefined identifier, so the branch raises `NameError` and extraction of the
whole document aborts. -/
theorem c7_missing_resource_raises :
    parse_patient_data [("bundle.json", FileContent.json c7bundle)]
        "bundle.json" "/processed/bundle.csv"
      = Except.error PyErr.nameError := rfl

/-- Claim C8 amended: every failure during per-item processing is caught at
the per-item boundary, so `process_data` succeeds whenever the batch fetch
does, for arbitrary collaborators and message bodies; an exception raised by
the fetch itself, however, propagates unchanged out of `process_data` (and
through `main`'s bare loop). -/
theorem c8_amended_per_item_isolation (c : Collab) (fs : Fs)
    (bodies : List (Option JValue)) (e : PyErr) :
    exceptIsOk (process_data c fs (Except.ok bodies)) = true
      ∧ process_data c fs (Except.error e) = Except.error e :=
  ⟨rfl, rfl⟩

/-- Claim C8 counterexample: a fetch failure is not caught anywhere — it
propagates out of `process_data`, and `main` has no handler, so the process
terminates. -/
theorem c8_fetch_error_propagates :
    process_data goodCollab [] (Except.error PyErr.clientError)
      = Except.error PyErr.clientError := rfl

/-- Claim C9: the TabularWriter's output — header plus one comma-delimited
CRLF-terminated line per row with `csv.excel` quoting — parsed back with a
standard delimited-text reader reproduces the original string-valued rows
exactly, including cells containing the delimiter, the quote character, or a
newline. -/
theorem c9_roundtrip (rows : List (List String)) (h : ∀ r ∈ rows, r ≠ []) :
    csvParse (write_csv rows) = some rows := by
  have hne : ∀ r' ∈ rows.map (fun r => r.map String.data), r' ≠ [] := by
    intro r' hr'
    rcases List.mem_map.mp hr' with ⟨r, hrmem, rfl⟩
    intro hnil
    exact h r hrmem (by simpa using hnil)
  unfold csvParse write_csv
  rw [csvReadChars_encodeCsv _ hne]
  have hid : (String.mk ∘ String.data) = id := funext string_mk_data
  simp [List.map_map, hid]

/-- Witness for C9 at rows exercising the delimiter, the quote character and
an embedded CRLF. -/
theorem c9_roundtrip_witness :
    (∀ r ∈ [["a,b", "q\"x", ""], ["line1\r\nline2"]], r ≠ ([] : List String))
      ∧ csvParse (write_csv [["a,b", "q\"x", ""], ["line1\r\nline2"]])
        = some [["a,b", "q\"x", ""], ["line1\r\nline2"]] :=
  ⟨by decide, c9_roundtrip _ (by decide)⟩

/-- Claim C10: for every local filesystem and every input path absent from it,
`parse_patient_data` raises nothing and signals nothing: it silently writes to
the given output path a CSV holding only the 11-column header row and no data
rows. -/
theorem c10_missing_input_header_only (fs : Fs) (input_file output_file : String)
    (h : fsLookup fs input_file = none) :
    parse_patient_data fs input_file output_file
      = Except.ok (fsWrite fs output_file (FileContent.text csvHeaderLine)) := by
  unfold parse_patient_data
  rw [h]
  rfl

/-- Witness for C10 at a nonexistent path over a nonempty filesystem. -/
theorem c10_missing_input_witness :
    fsLookup [("other.json", FileContent.text "x")] "missing.json" = none
      ∧ parse_patient_data [("other.json", FileContent.text "x")]
            "missing.json" "/processed/missing.csv"
        = Except.ok (fsWrite [("other.json", FileContent.text "x")]
            "/processed/missing.csv" (FileContent.text csvHeaderLine)) :=
  ⟨rfl, c10_missing_input_header_only _ _ _ rfl⟩
